import Mathlib

/-!
Shallow embedding of the complaint-lifecycle core of the DCMS backend
(complaint service, SLA/escalation service, AI classification pipeline and
the priority/SLA helper functions), together with theorems settling the
frozen claims about it.

Modelling conventions:
* timestamps are milliseconds since the epoch, as `Int` (JavaScript
  `Date.getTime()` / `Date.now()`);
* fractional arithmetic (scores, hours, multipliers) is exact `ℚ`;
* the database is passed explicitly: a complaint row, its status-log rows
  and its escalation rows are ordinary values, and an operation returns
  the updated values;
* JavaScript's hidden clock reads (`Date.now()`, `new Date()`) are made
  explicit `nowMs` parameters holding the value such a read returns;
* fallible operations return the untouched state together with an
  `Option` error (the source throws before performing any write on the
  validation paths modelled here).
-/

/-- Complaint lifecycle statuses, from the `ComplaintStatus` union type. -/
inductive ComplaintStatus
  | submitted
  | pending_review
  | approved
  | rejected
  | assigned
  | in_progress
  | resolved
  | closed
  | escalated
  deriving DecidableEq, Repr, Fintype

/-- Urgency levels, from the `UrgencyLevel` union type. -/
inductive UrgencyLevel
  | critical
  | high
  | normal
  deriving DecidableEq, Repr, Fintype

/-- Escalation levels, from the `ESCALATION_ORDER` constant of the SLA
service (`['level_1','level_2','level_3','executive']`). -/
inductive EscalationLevel
  | level_1
  | level_2
  | level_3
  | executive
  deriving DecidableEq, Repr, Fintype

/-- Index of a level in `ESCALATION_ORDER` (`indexOf` in the source). -/
def levelIdx : EscalationLevel → Nat
  | .level_1 => 0
  | .level_2 => 1
  | .level_3 => 2
  | .executive => 3

/-- The complaint row, restricted to the columns the embedded operations
read or write. -/
structure Complaint where
  status : ComplaintStatus
  created_at : Int := 0
  urgency : UrgencyLevel := .normal
  department_id : Option String := none
  assigned_to : Option String := none
  assigned_at : Option Int := none
  approved_at : Option Int := none
  resolved_at : Option Int := none
  closed_at : Option Int := none
  resolution_notes : Option String := none
  resolution_type : Option String := none
  ai_confidence : Option ℚ := none
  ai_reasoning : Option String := none
  ai_classified_at : Option Int := none
  ai_model_version : Option String := none
  is_auto_approved : Bool := false
  is_critical_area : Bool := false
  priority_score : Option ℚ := none
  sla_deadline : Option Int := none
  sla_breached : Bool := false
  sla_breach_notified : Bool := false
  deriving DecidableEq, Repr

/-- A row of `complaint_status_logs` as inserted by the complaint service. -/
structure StatusLogRow where
  old_status : Option ComplaintStatus
  new_status : ComplaintStatus
  changed_by : Option String
  change_reason : Option String
  deriving DecidableEq, Repr

/-- Error raised by the complaint service; `validationError from to` embeds
the `ValidationError` whose message names the two statuses
(`Cannot transition from ... to ...`). -/
inductive ComplaintError
  | validationError (fromStatus toStatus : ComplaintStatus)
  deriving DecidableEq, Repr

/-- The `validTransitions` table of `updateComplaintStatus`
(complaint service, lines 649-659). -/
def validTransitions : ComplaintStatus → List ComplaintStatus
  | .submitted => [.pending_review, .approved]
  | .pending_review => [.approved, .rejected]
  | .approved => [.assigned]
  | .rejected => []
  | .assigned => [.in_progress]
  | .in_progress => [.resolved, .escalated]
  | .resolved => [.closed]
  | .closed => []
  | .escalated => [.in_progress, .resolved]

/-- Modelled from the spec: the allowed-edge table written out in §4.3,
for comparison with the source's `validTransitions`. -/
def specEdge (fromStatus toStatus : ComplaintStatus) : Bool :=
  match fromStatus, toStatus with
  | .submitted, .pending_review => true
  | .submitted, .approved => true
  | .pending_review, .approved => true
  | .pending_review, .rejected => true
  | .approved, .assigned => true
  | .assigned, .in_progress => true
  | .in_progress, .resolved => true
  | .in_progress, .escalated => true
  | .escalated, .in_progress => true
  | .escalated, .resolved => true
  | .resolved, .closed => true
  | _, _ => false

/-- `updateComplaintStatus` (complaint service, lines 639-712): validate the
transition against `validTransitions`, on success set the status, the
side-effect fields for `resolved`/`closed` and append one status-log row;
on failure raise `ValidationError` before any write. -/
def updateComplaintStatus (c : Complaint) (logs : List StatusLogRow)
    (updaterId : String) (status : ComplaintStatus)
    (notes : Option String) (resolutionType : Option String)
    (nowMs : Int) : (Complaint × List StatusLogRow) × Option ComplaintError :=
  if status ∈ validTransitions c.status then
    let c1 := { c with status := status }
    let c2 := if status = .resolved then
        { c1 with resolved_at := some nowMs, resolution_notes := notes,
                  resolution_type := resolutionType }
      else c1
    let c3 := if status = .closed then { c2 with closed_at := some nowMs } else c2
    ((c3, logs ++ [{ old_status := some c.status, new_status := status,
                     changed_by := some updaterId, change_reason := notes }]),
     none)
  else ((c, logs), some (.validationError c.status status))

/-- `assignComplaint` (complaint service, lines 715-739): writes
`status: 'assigned'` directly, with no transition validation. -/
def assignComplaint (c : Complaint) (assignedTo : Option String)
    (nowMs : Int) : Complaint :=
  { c with status := .assigned, assigned_at := some nowMs,
           assigned_to := assignedTo }

/-- The `'system'` branch of the n8n `status_update` webhook handler
(webhooks route, lines 60-111): writes the requested status directly
("bypassing validation for system operations" per its own comment) and
logs a row with a null `old_status` and null actor. -/
def webhookSystemStatusUpdate (c : Complaint) (logs : List StatusLogRow)
    (status : ComplaintStatus) (notes : Option String)
    (nowMs : Int) : Complaint × List StatusLogRow :=
  let c1 := { c with status := status }
  let c2 := if status = .assigned then { c1 with assigned_at := some nowMs } else c1
  (c2, logs ++ [{ old_status := none, new_status := status,
                  changed_by := none, change_reason := notes }])

/-- Weight configuration of the priority scorer (`PriorityWeights`). -/
structure PriorityWeights where
  urgency : ℚ
  time : ℚ
  location : ℚ
  deriving DecidableEq, Repr

/-- `DEFAULT_WEIGHTS = { urgency: 40, time: 35, location: 25 }`. -/
def DEFAULT_WEIGHTS : PriorityWeights := { urgency := 40, time := 35, location := 25 }

/-- `URGENCY_VALUES = { critical: 1.0, high: 0.7, normal: 0.3 }`. -/
def URGENCY_VALUES : UrgencyLevel → ℚ
  | .critical => 1
  | .high => 7/10
  | .normal => 3/10

/-- JavaScript `Math.round`: round half toward positive infinity. -/
def jsRound (q : ℚ) : Int := ⌊q + 1/2⌋

/-- `Math.round(score * 100) / 100`: round to two decimal places. -/
def round2 (q : ℚ) : ℚ := (jsRound (q * 100) : ℚ) / 100

/-- `calculatePriorityScore(urgency, createdAt, isCriticalArea, weights)`
from the helpers module.  The source reads `Date.now()` for the age of the
complaint; that hidden clock read is the explicit `nowMs` argument here. -/
def calculatePriorityScore (urgency : UrgencyLevel) (createdAtMs : Int)
    (isCriticalArea : Bool) (weights : PriorityWeights)
    (nowMs : Int) : ℚ :=
  let urgencyValue := URGENCY_VALUES urgency
  let hoursOpen : ℚ := ((nowMs - createdAtMs : Int) : ℚ) / 3600000
  let timeValue := min (hoursOpen / 168) 1
  let locationValue : ℚ := if isCriticalArea then 1 else 0
  round2 (weights.urgency * urgencyValue + weights.time * timeValue +
          weights.location * locationValue)

/-- Urgency multipliers shared by `calculateSLADeadline` and the inline
computation in `classifyAndProcessComplaint`
(`critical: 0.25, high: 0.5, normal: 1.0`). -/
def urgencyMultiplier : UrgencyLevel → ℚ
  | .critical => 1/4
  | .high => 1/2
  | .normal => 1

/-- `d.setHours(d.getHours() + h)` for `h ≥ 0` on a DST-free clock: the
hour field is an integer, and `setHours` truncates its argument, so the
call advances the date by `⌊h⌋` whole hours (the fractional part of a
non-integral hour count is dropped). -/
def addHoursJs (baseMs : Int) (h : ℚ) : Int := baseMs + ⌊h⌋ * 3600000

/-- `calculateSLADeadline(baseSLAHours, urgency, createdAt)` from the
helpers module. -/
def calculateSLADeadline (baseSLAHours : ℚ) (urgency : UrgencyLevel)
    (createdAtMs : Int) : Int :=
  addHoursJs createdAtMs (baseSLAHours * urgencyMultiplier urgency)

/-- A department row as read by `getDepartmentByCode` (`id, sla_hours`). -/
structure Department where
  id : String
  sla_hours : Int
  deriving DecidableEq, Repr

/-- The SLA-deadline computation inlined in `classifyAndProcessComplaint`
(aiClassification service, lines 311-323): `null` when no department was
resolved, otherwise `new Date()` (the classification instant, passed here
as `nowMs`) advanced by `sla_hours * multiplier` hours. -/
def computeSlaDeadline (department : Option Department)
    (urgency : UrgencyLevel) (nowMs : Int) : Option Int :=
  match department with
  | none => none
  | some d => some (addHoursJs nowMs ((d.sla_hours : ℚ) * urgencyMultiplier urgency))

/-- A parsed classifier result (the fields of `AIClassificationResult`
consumed downstream). -/
structure Classification where
  urgency : UrgencyLevel
  confidence : ℚ
  reasoning : String
  deriving DecidableEq, Repr

/-- The record returned by `classifyAndProcessComplaint`. -/
structure ClassifyOutcome where
  urgency : UrgencyLevel
  confidence : ℚ
  reasoning : String
  departmentId : Option String
  isCriticalArea : Bool
  isAutoApproved : Bool
  slaDeadline : Option Int
  deriving DecidableEq, Repr

/-- `classifyAndProcessComplaint` (aiClassification service, lines
283-341), as a function of the external calls it makes: the classifier
result, the department lookup and the critical-area check.  Auto-approval
is `confidence >= config.ai.confidenceThreshold`. -/
def classifyAndProcessComplaint (cls : Classification)
    (department : Option Department) (isCriticalArea : Bool)
    (confidenceThreshold : ℚ) (nowMs : Int) : ClassifyOutcome :=
  { urgency := cls.urgency
    confidence := cls.confidence
    reasoning := cls.reasoning
    departmentId := department.map (·.id)
    isCriticalArea := isCriticalArea
    isAutoApproved := decide (confidenceThreshold ≤ cls.confidence)
    slaDeadline := computeSlaDeadline department cls.urgency nowMs }

/-- The explanatory note written by the classification failure handler
(complaint service, line 429). -/
def classificationFailNote : String := "Classification failed - requires manual review"

/-- `processComplaintClassification` (complaint service, lines 362-433).
The classifier pipeline's outcome arrives as an `Except`: `.ok` is the
update of lines 388-404, `.error` is the catch branch of lines 421-432,
which logs the failure (the returned `Bool`) and moves the complaint to
`pending_review` with a system-authored note.  Either way a complaint is
returned — the error is never rethrown to the submitter, and the result
is produced by this single pass (no retry). -/
def processComplaintClassification (c : Complaint)
    (res : Except Unit ClassifyOutcome) (nowMs : Int) : Complaint × Bool :=
  match res with
  | .ok o =>
    ({ c with
        department_id := o.departmentId
        urgency := o.urgency
        ai_confidence := some o.confidence
        ai_reasoning := some o.reasoning
        ai_classified_at := some nowMs
        ai_model_version := some "gemini-pro-1.0"
        is_auto_approved := o.isAutoApproved
        status := if o.isAutoApproved then .approved else .pending_review
        priority_score := some (calculatePriorityScore o.urgency c.created_at
          o.isCriticalArea DEFAULT_WEIGHTS nowMs)
        is_critical_area := o.isCriticalArea
        sla_deadline := o.slaDeadline
        approved_at := if o.isAutoApproved then some nowMs else none },
     false)
  | .error _ =>
    ({ c with status := .pending_review, ai_reasoning := some classificationFailNote },
     true)

/-- An `escalations` row, restricted to the columns `checkEscalation`
reads (`escalation_level, created_at`). -/
structure EscRow where
  escalation_level : EscalationLevel
  created_at : Int
  deriving DecidableEq, Repr

/-- Successor in `ESCALATION_ORDER` (`ESCALATION_ORDER[currentIndex + 1]`;
the `executive` case is unreachable behind the highest-level guard). -/
def nextLevel : EscalationLevel → EscalationLevel
  | .level_1 => .level_2
  | .level_2 => .level_3
  | .level_3 => .executive
  | .executive => .executive

/-- The `escalationThresholds` record of `checkEscalation`
(`level_1: 24, level_2: 48, level_3: 72`).  The source record has no
`executive` entry; that lookup sits behind the highest-level guard and is
never evaluated, so the value returned for it here is immaterial. -/
def escalationThreshold : EscalationLevel → ℚ
  | .level_1 => 24
  | .level_2 => 48
  | .level_3 => 72
  | .executive => 0

/-- `checkEscalation(complaintId, hoursOverdue)` (SLA service, lines
137-191), as a function of the most recent escalation row it queries.
Returns the `(previousLevel, nextLevel)` pair passed to
`escalateComplaint` when the complaint advances, `none` when the check
skips.  The `Date.now()` read of the cool-down computation is the
explicit `nowMs` argument. -/
def checkEscalation (latestEscalation : Option EscRow) (hoursOverdue : ℚ)
    (nowMs : Int) : Option (EscalationLevel × EscalationLevel) :=
  match latestEscalation with
  | none => none
  | some row =>
    if 3 ≤ levelIdx row.escalation_level then none
    else if hoursOverdue < escalationThreshold row.escalation_level then none
    else if ((nowMs - row.created_at : Int) : ℚ) / 3600000 < 12 then none
    else some (row.escalation_level, nextLevel row.escalation_level)

/-- Per-complaint slice of the state `checkSLABreaches` sweeps over: the
columns its query selects plus the complaint's `escalations` rows, in
insertion order (the most recently created row is the last one, matching
the `created_at`-descending `limit 1` query of `checkEscalation`). -/
structure CState where
  status : ComplaintStatus
  sla_deadline : Option Int
  sla_breached : Bool
  sla_breach_notified : Bool
  escalations : List EscRow
  deriving DecidableEq, Repr

/-- Level of a complaint's most recent escalation row, if any. -/
def latestLevel (st : CState) : Option EscalationLevel :=
  st.escalations.getLast?.map (·.escalation_level)

/-- Rank of an optional escalation level: not-yet-escalated sits below
`level_1`, and the four levels keep their `ESCALATION_ORDER` order. -/
def levelRank : Option EscalationLevel → Nat
  | none => 0
  | some l => levelIdx l + 1

/-- The mutually exclusive breach/warning branches of one
`checkSLABreaches` loop iteration (SLA service, lines 41-54): a newly
overdue, not-yet-breached complaint gets `handleSLABreach` (flags set,
status forced to `escalated`, initial `level_1` escalation row); a
complaint inside the warning window that was not yet notified gets
`handleSLAWarning` (notified flag only). -/
def sweepBranch (warningThresholdMs : Int) (st : CState)
    (timeUntilDeadline nowMs : Int) : CState :=
  if timeUntilDeadline < 0 ∧ ¬st.sla_breached then
    { st with sla_breached := true, sla_breach_notified := true,
              status := .escalated,
              escalations := st.escalations ++ [{ escalation_level := .level_1,
                                                  created_at := nowMs }] }
  else if 0 < timeUntilDeadline ∧ timeUntilDeadline < warningThresholdMs ∧
          ¬st.sla_breach_notified then
    { st with sla_breach_notified := true }
  else st

/-- One iteration of the `checkSLABreaches` loop (SLA service, lines
37-64) for a single complaint: the breach/warning branches
(`sweepBranch`) followed by the escalation delegation of lines 56-63,
which is guarded by the queried snapshot's `sla_breached` flag and its
status (skipped for status `escalated`); a ladder advance appends the
next-level row (`escalateComplaint`).  Complaints outside the query's
candidate set (terminal status or null deadline) are untouched.  The
guards read the queried row snapshot `st`; the escalation branch's
database reads see the current table state `base`. -/
def sweepComplaint (warningThresholdMs : Int) (st : CState) (nowMs : Int) : CState :=
  if st.status = .resolved ∨ st.status = .closed ∨ st.status = .rejected then st
  else
    match st.sla_deadline with
    | none => st
    | some deadline =>
      let timeUntilDeadline := deadline - nowMs
      let base := sweepBranch warningThresholdMs st timeUntilDeadline nowMs
      if st.sla_breached ∧ st.status ≠ .escalated then
        match checkEscalation base.escalations.getLast?
            ((|timeUntilDeadline| : Int) / (3600000:ℚ)) nowMs with
        | some (_, next) =>
          { base with escalations := base.escalations ++ [{ escalation_level := next,
                                                            created_at := nowMs }] }
        | none => base
      else base

/-- A sequence of sweep invocations at the given instants. -/
def sweeps (warningThresholdMs : Int) (st : CState) (times : List Int) : CState :=
  times.foldl (sweepComplaint warningThresholdMs) st

/-- States whose escalation rows can only exist once the complaint is
flagged breached — the reachable states of the sweep, since only
`handleSLABreach` (which sets `sla_breached`) creates the first row and
nothing ever clears the flag. -/
def escInv (st : CState) : Prop :=
  st.escalations ≠ [] → st.sla_breached = true

/-- A breached complaint sitting in the `escalated` status that
`handleSLABreach` itself assigns, 30 hours past its deadline, whose only
escalation row (`level_1`) is 30 hours old. -/
def breachedEscalatedSample : CState :=
  { status := .escalated, sla_deadline := some 0, sla_breached := true,
    sla_breach_notified := true,
    escalations := [{ escalation_level := .level_1, created_at := 0 }] }

/-- A breached complaint being worked on (`in_progress`) whose only
escalation row is `level_1`. -/
def sweepSampleState : CState :=
  { status := .in_progress, sla_deadline := some 0, sla_breached := true,
    sla_breach_notified := true,
    escalations := [{ escalation_level := .level_1, created_at := 0 }] }

/-- C1: the `validTransitions` table of `updateComplaintStatus` is exactly
the §4.3 edge table; for every target status on an edge from the current
status, the operation succeeds, sets the status, sets
`resolved_at`/resolution fields on entering `resolved` and `closed_at` on
entering `closed`, and appends exactly one status-log row recording the
old status, the new status, the actor and the reason; for every pair off
the table it fails with a `ValidationError` naming the from and to
statuses and leaves the complaint and the log untouched. -/
theorem c1_updateComplaintStatus_contract
    (c : Complaint) (logs : List StatusLogRow) (updaterId : String)
    (target : ComplaintStatus) (notes resolutionType : Option String) (nowMs : Int) :
    (∀ s t, t ∈ validTransitions s ↔ specEdge s t = true) ∧
    (target ∈ validTransitions c.status →
      (updateComplaintStatus c logs updaterId target notes resolutionType nowMs).2 = none ∧
      (updateComplaintStatus c logs updaterId target notes resolutionType nowMs).1.1.status
        = target ∧
      (target = .resolved →
        (updateComplaintStatus c logs updaterId target notes resolutionType
            nowMs).1.1.resolved_at = some nowMs ∧
        (updateComplaintStatus c logs updaterId target notes resolutionType
            nowMs).1.1.resolution_notes = notes ∧
        (updateComplaintStatus c logs updaterId target notes resolutionType
            nowMs).1.1.resolution_type = resolutionType) ∧
      (target = .closed →
        (updateComplaintStatus c logs updaterId target notes resolutionType
            nowMs).1.1.closed_at = some nowMs) ∧
      (updateComplaintStatus c logs updaterId target notes resolutionType nowMs).1.2
        = logs ++ [{ old_status := some c.status, new_status := target,
                     changed_by := some updaterId, change_reason := notes }]) ∧
    (target ∉ validTransitions c.status →
      updateComplaintStatus c logs updaterId target notes resolutionType nowMs
        = ((c, logs), some (.validationError c.status target))) := by
  refine ⟨by decide, fun h => ?_, fun h => ?_⟩
  · refine ⟨?_, ?_, fun hr => ?_, fun hc => ?_, ?_⟩
    · simp only [updateComplaintStatus, if_pos h]
    · simp only [updateComplaintStatus, if_pos h]
      split <;> split <;> rfl
    · subst hr
      simp [updateComplaintStatus, if_pos h]
    · subst hc
      simp [updateComplaintStatus, if_pos h]
    · simp only [updateComplaintStatus, if_pos h]
  · simp only [updateComplaintStatus, if_neg h]

/-- Witness for C1: the edge `in_progress → resolved` succeeds with the
side-effect fields set and one log row appended; the non-edge
`closed → assigned` fails with the `ValidationError` naming both statuses
and changes nothing. -/
theorem c1_updateComplaintStatus_contract_witness :
    (ComplaintStatus.resolved ∈ validTransitions ComplaintStatus.in_progress ∧
      (updateComplaintStatus { status := .in_progress } [] "officer" .resolved
        (some "patched") (some "fixed") 5).2 = none ∧
      (updateComplaintStatus { status := .in_progress } [] "officer" .resolved
        (some "patched") (some "fixed") 5).1.1.resolved_at = some 5 ∧
      (updateComplaintStatus { status := .in_progress } [] "officer" .resolved
        (some "patched") (some "fixed") 5).1.2
        = [{ old_status := some .in_progress, new_status := .resolved,
             changed_by := some "officer", change_reason := some "patched" }]) ∧
    (ComplaintStatus.assigned ∉ validTransitions ComplaintStatus.closed ∧
      updateComplaintStatus { status := .closed } [] "officer" .assigned none none 5
        = (({ status := .closed }, []),
           some (.validationError .closed .assigned))) := by
  constructor
  · refine ⟨by decide, ?_, ?_, ?_⟩
    · exact ((c1_updateComplaintStatus_contract { status := .in_progress } []
        "officer" .resolved (some "patched") (some "fixed") 5).2.1 (by decide)).1
    · exact (((c1_updateComplaintStatus_contract { status := .in_progress } []
        "officer" .resolved (some "patched") (some "fixed") 5).2.1
          (by decide)).2.2.1 rfl).1
    · exact ((c1_updateComplaintStatus_contract { status := .in_progress } []
        "officer" .resolved (some "patched") (some "fixed") 5).2.1 (by decide)).2.2.2.2
  · refine ⟨by decide, ?_⟩
    exact (c1_updateComplaintStatus_contract { status := .closed } []
      "officer" .assigned none none 5).2.2 (by decide)

/-- Counterexample to C2: `assignComplaint` is a code path that writes a
status the transition table rejects — applied to a `resolved` complaint it
stores `assigned`, yet `resolved → assigned` is not an edge of
`validTransitions`. -/
theorem c2_counterexample :
    (assignComplaint { status := .resolved } none 0).status = .assigned ∧
    ComplaintStatus.assigned ∉ validTransitions ComplaintStatus.resolved := by
  decide

/-- C2 as amended: `updateComplaintStatus` is validated (its contract is
C1), but the system-triggered writers bypass it: `assignComplaint` stores
`assigned` whatever the current status — a write the table accepts only
from `approved` — and the webhook `'system'` branch stores any requested
status unconditionally, logging a row that does not even record the old
status. -/
theorem c2_statusWrite_bypass (c : Complaint) (assignedTo : Option String)
    (logs : List StatusLogRow) (target : ComplaintStatus)
    (notes : Option String) (nowMs : Int) :
    (assignComplaint c assignedTo nowMs).status = .assigned ∧
    ((assignComplaint c assignedTo nowMs).status ∈ validTransitions c.status ↔
      c.status = .approved) ∧
    (webhookSystemStatusUpdate c logs target notes nowMs).1.status = target ∧
    (webhookSystemStatusUpdate c logs target notes nowMs).2
      = logs ++ [{ old_status := none, new_status := target,
                   changed_by := none, change_reason := notes }] := by
  refine ⟨rfl, ?_, ?_, ?_⟩
  · cases hc : c.status <;> simp [assignComplaint, validTransitions, hc]
  · simp only [webhookSystemStatusUpdate]
    split <;> rfl
  · simp only [webhookSystemStatusUpdate]

/-- C3: the Auto-Approval Gate.  When the classifier confidence reaches the
configured threshold, the background update moves the submitted complaint
to `approved` with `is_auto_approved = true` and `approved_at` set, its
priority score computed by the scorer and its SLA deadline computed from
the resolved department; below the threshold it moves to `pending_review`
with `is_auto_approved = false` and no approval timestamp. -/
theorem c3_autoApproval_gate (cls : Classification)
    (department : Option Department) (crit : Bool) (threshold : ℚ)
    (c : Complaint) (nowMs : Int) (_hsub : c.status = .submitted) :
    (threshold ≤ cls.confidence →
      ((processComplaintClassification c
          (.ok (classifyAndProcessComplaint cls department crit threshold nowMs))
          nowMs).1.status = .approved ∧
       (processComplaintClassification c
          (.ok (classifyAndProcessComplaint cls department crit threshold nowMs))
          nowMs).1.is_auto_approved = true ∧
       (processComplaintClassification c
          (.ok (classifyAndProcessComplaint cls department crit threshold nowMs))
          nowMs).1.approved_at = some nowMs ∧
       (processComplaintClassification c
          (.ok (classifyAndProcessComplaint cls department crit threshold nowMs))
          nowMs).1.priority_score
         = some (calculatePriorityScore cls.urgency c.created_at crit
             DEFAULT_WEIGHTS nowMs) ∧
       (processComplaintClassification c
          (.ok (classifyAndProcessComplaint cls department crit threshold nowMs))
          nowMs).1.sla_deadline
         = computeSlaDeadline department cls.urgency nowMs)) ∧
    (cls.confidence < threshold →
      ((processComplaintClassification c
          (.ok (classifyAndProcessComplaint cls department crit threshold nowMs))
          nowMs).1.status = .pending_review ∧
       (processComplaintClassification c
          (.ok (classifyAndProcessComplaint cls department crit threshold nowMs))
          nowMs).1.is_auto_approved = false ∧
       (processComplaintClassification c
          (.ok (classifyAndProcessComplaint cls department crit threshold nowMs))
          nowMs).1.approved_at = none)) := by
  constructor
  · intro h
    simp [processComplaintClassification, classifyAndProcessComplaint, h]
  · intro h
    have h' : ¬ threshold ≤ cls.confidence := not_le.mpr h
    simp [processComplaintClassification, classifyAndProcessComplaint, h']

/-- Witness for C3: confidence 0.80 against threshold 0.75 auto-approves
(the complaint lands in `approved` with the approval timestamp), while
confidence 0.60 lands in `pending_review` unapproved. -/
theorem c3_autoApproval_gate_witness :
    ((3:ℚ)/4 ≤ 4/5 ∧
      (processComplaintClassification { status := .submitted }
        (.ok (classifyAndProcessComplaint { urgency := .normal, confidence := 4/5, reasoning := "r" } none false (3/4) 0)) 0).1.status = .approved ∧
      (processComplaintClassification { status := .submitted }
        (.ok (classifyAndProcessComplaint { urgency := .normal, confidence := 4/5, reasoning := "r" } none false (3/4) 0)) 0).1.is_auto_approved = true) ∧
    ((3:ℚ)/5 < 3/4 ∧
      (processComplaintClassification { status := .submitted }
        (.ok (classifyAndProcessComplaint { urgency := .normal, confidence := 3/5, reasoning := "r" } none false (3/4) 0)) 0).1.status = .pending_review ∧
      (processComplaintClassification { status := .submitted }
        (.ok (classifyAndProcessComplaint { urgency := .normal, confidence := 3/5, reasoning := "r" } none false (3/4) 0)) 0).1.is_auto_approved = false) := by
  constructor
  · refine ⟨by norm_num, ?_, ?_⟩
    · exact ((c3_autoApproval_gate { urgency := .normal, confidence := 4/5, reasoning := "r" } none false (3/4) { status := .submitted } 0 rfl).1
        (by norm_num)).1
    · exact ((c3_autoApproval_gate { urgency := .normal, confidence := 4/5, reasoning := "r" } none false (3/4) { status := .submitted } 0 rfl).1
        (by norm_num)).2.1
  · refine ⟨by norm_num, ?_, ?_⟩
    · exact ((c3_autoApproval_gate { urgency := .normal, confidence := 3/5, reasoning := "r" } none false (3/4) { status := .submitted } 0 rfl).2
        (by norm_num)).1
    · exact ((c3_autoApproval_gate { urgency := .normal, confidence := 3/5, reasoning := "r" } none false (3/4) { status := .submitted } 0 rfl).2
        (by norm_num)).2.1

/-- Counterexample to C4: at `hoursOverdue` exactly equal to the level's
threshold the code advances the ladder (its guard is `hoursOverdue <
threshold`), although 24 does not exceed 24 — the claim's strict "exceeds"
does not match the source's non-strict comparison. -/
theorem c4_counterexample :
    checkEscalation (some { escalation_level := .level_1, created_at := 0 }) 24
      43200000 = some (.level_1, .level_2) ∧
    ¬ escalationThreshold .level_1 < 24 := by
  constructor
  · norm_num [checkEscalation, escalationThreshold, levelIdx, nextLevel]
  · norm_num [escalationThreshold]

/-- C4 as amended: a breached complaint whose most recent escalation row
sits at `level_1`/`level_2`/`level_3` advances to the next level exactly
when `hoursOverdue` is at least the level's threshold (24/48/72) and at
least 12 hours have elapsed since that row; at `executive` (or with no
row) it never advances.  In particular the spec's hysteresis example
holds: escalated to `level_1` nine hours ago with `hoursOverdue = 30`
there is no advance, and rechecked 13 hours later (22 h since the row,
`hoursOverdue = 43`) the complaint advances. -/
theorem c4_escalationLadder_advance (row : EscRow) (hoursOverdue : ℚ)
    (nowMs : Int) :
    (checkEscalation (some row) hoursOverdue nowMs
        = some (row.escalation_level, nextLevel row.escalation_level) ↔
      (levelIdx row.escalation_level ≤ 2 ∧
       escalationThreshold row.escalation_level ≤ hoursOverdue ∧
       (12:ℚ) ≤ ((nowMs - row.created_at : Int) : ℚ) / 3600000)) ∧
    (row.escalation_level = .executive →
      checkEscalation (some row) hoursOverdue nowMs = none) ∧
    checkEscalation none hoursOverdue nowMs = none ∧
    checkEscalation (some { escalation_level := .level_1, created_at := 0 }) 30
      (9 * 3600000) = none ∧
    checkEscalation (some { escalation_level := .level_1, created_at := 0 }) 43
      (22 * 3600000) = some (.level_1, .level_2) := by
  refine ⟨?_, ?_, rfl, ?_, ?_⟩
  · simp only [checkEscalation]
    split_ifs with h1 h2 h3
    · simp only [false_iff, not_and]
      intro hle
      omega
    · simp only [false_iff, not_and]
      intro _ hth
      exact absurd hth (not_le.mpr h2)
    · simp only [false_iff, not_and]
      intro _ _
      exact fun hcd => absurd hcd (not_le.mpr h3)
    · exact iff_of_true rfl ⟨by omega, le_of_not_lt h2, le_of_not_lt h3⟩
  · intro he
    simp [checkEscalation, he, levelIdx]
  · norm_num [checkEscalation, escalationThreshold, levelIdx]
  · norm_num [checkEscalation, escalationThreshold, levelIdx, nextLevel]

/-- Witness for C4: at `level_1`, 43 hours overdue and 22 hours past the
row, the advance condition holds and the ladder advances to `level_2`; an
`executive` row never advances. -/
theorem c4_escalationLadder_advance_witness :
    (levelIdx EscalationLevel.level_1 ≤ 2 ∧
      escalationThreshold .level_1 ≤ 43 ∧
      (12:ℚ) ≤ (((22 * 3600000 : Int) - (0:Int) : Int) : ℚ) / 3600000) ∧
    checkEscalation (some { escalation_level := .level_1, created_at := 0 }) 43
      (22 * 3600000) = some (.level_1, .level_2) ∧
    ({ escalation_level := .executive, created_at := 0 } : EscRow).escalation_level
      = .executive ∧
    checkEscalation (some { escalation_level := .executive, created_at := 0 })
      1000 0 = none := by
  refine ⟨⟨by norm_num [levelIdx], by norm_num [escalationThreshold], by norm_num⟩,
    ?_, rfl, ?_⟩
  · exact (c4_escalationLadder_advance
      { escalation_level := .level_1, created_at := 0 } 43 (22 * 3600000)).1.mpr
      ⟨by norm_num [levelIdx], by norm_num [escalationThreshold], by norm_num⟩
  · exact (c4_escalationLadder_advance
      { escalation_level := .executive, created_at := 0 } 1000 0).2.1 rfl

/-- C5 evaluated at the failing input: `breachedEscalatedSample` is
breached, 30 hours overdue, non-terminal, and its ladder advance is due
(`checkEscalation` would answer `level_1 → level_2`), yet the sweep leaves
it completely unchanged — the loop's guard `status !== 'escalated'`
excludes exactly the status `handleSLABreach` assigns on breach, so the
complaint is never delegated to the Escalation Ladder. -/
theorem c5_breached_escalated_skipped :
    sweepComplaint 21600000 breachedEscalatedSample 108000000
      = breachedEscalatedSample ∧
    breachedEscalatedSample.sla_breached = true ∧
    breachedEscalatedSample.status ≠ .resolved ∧
    breachedEscalatedSample.status ≠ .closed ∧
    breachedEscalatedSample.status ≠ .rejected ∧
    checkEscalation breachedEscalatedSample.escalations.getLast? 30 108000000
      = some (.level_1, .level_2) := by
  refine ⟨by decide, by decide, by decide, by decide, by decide, ?_⟩
  norm_num [breachedEscalatedSample, checkEscalation, escalationThreshold,
    levelIdx, nextLevel]

/-- Advancing from a non-top level increments the `ESCALATION_ORDER`
index. -/
theorem levelIdx_nextLevel {l : EscalationLevel} (h : levelIdx l ≤ 2) :
    levelIdx (nextLevel l) = levelIdx l + 1 := by
  cases l <;> simp_all [levelIdx, nextLevel]

/-- Characterization of a successful ladder check: it can only answer on a
present row below the top level, and the advance it reports is to the next
level of that row. -/
theorem checkEscalation_some {latest : Option EscRow} {hoursOverdue : ℚ}
    {nowMs : Int} {p : EscalationLevel × EscalationLevel}
    (hs : checkEscalation latest hoursOverdue nowMs = some p) :
    ∃ row, latest = some row ∧
      p = (row.escalation_level, nextLevel row.escalation_level) ∧
      levelIdx row.escalation_level ≤ 2 := by
  cases latest with
  | none => exact absurd hs (by simp [checkEscalation])
  | some row =>
    simp only [checkEscalation] at hs
    split_ifs at hs with h1 h2 h3
    all_goals cases hs
    all_goals exact ⟨row, rfl, rfl, by omega⟩

/-- Effect of the breach/warning branches on the escalation rows and the
breached flag: either both are untouched, or the complaint was not yet
breached and gets flagged together with its initial `level_1` row. -/
theorem sweepBranch_shape (w : Int) (st : CState) (tud now : Int) :
    ((sweepBranch w st tud now).escalations = st.escalations ∧
     (sweepBranch w st tud now).sla_breached = st.sla_breached) ∨
    (st.sla_breached = false ∧
     (sweepBranch w st tud now).escalations
       = st.escalations ++ [{ escalation_level := .level_1, created_at := now }] ∧
     (sweepBranch w st tud now).sla_breached = true) := by
  unfold sweepBranch
  split_ifs with h1 h2
  · right
    refine ⟨?_, rfl, rfl⟩
    simpa using h1.2
  · exact Or.inl ⟨rfl, rfl⟩
  · exact Or.inl ⟨rfl, rfl⟩

/-- Effect of one sweep iteration on the escalation rows and the breached
flag: untouched, or a first `level_1` row on a complaint that was not yet
breached, or a ladder advance appending the successor of the most recent
row's (sub-`executive`) level. -/
theorem sweep_shape (w : Int) (st : CState) (now : Int) :
    ((sweepComplaint w st now).escalations = st.escalations ∧
     (sweepComplaint w st now).sla_breached = st.sla_breached) ∨
    (st.sla_breached = false ∧
     (sweepComplaint w st now).escalations
       = st.escalations ++ [{ escalation_level := .level_1, created_at := now }] ∧
     (sweepComplaint w st now).sla_breached = true) ∨
    (∃ row, st.escalations.getLast? = some row ∧ levelIdx row.escalation_level ≤ 2 ∧
     (sweepComplaint w st now).escalations
       = st.escalations ++ [{ escalation_level := nextLevel row.escalation_level,
                              created_at := now }] ∧
     (sweepComplaint w st now).sla_breached = st.sla_breached) := by
  unfold sweepComplaint
  split
  · exact Or.inl ⟨rfl, rfl⟩
  split
  · exact Or.inl ⟨rfl, rfl⟩
  rename_i hterm x deadline hd
  dsimp only
  split
  · rename_i hg
    rcases sweepBranch_shape w st (deadline - now) now with ⟨he, hb⟩ | ⟨hf, he2, hb2⟩
    · split
      · rename_i fst next heq
        obtain ⟨row, hrow, hp, hidx⟩ := checkEscalation_some heq
        rw [he] at hrow
        rw [Prod.mk.injEq] at hp
        obtain ⟨hp1, hp2⟩ := hp
        subst hp1
        subst hp2
        refine Or.inr (Or.inr ⟨row, hrow, hidx, ?_, ?_⟩)
        · rw [← he]
        · exact hb
      · exact Or.inl ⟨he, hb⟩
    · exact absurd hg.1 (by simp [hf])
  · rcases sweepBranch_shape w st (deadline - now) now with ⟨he, hb⟩ | ⟨hf, he, hb⟩
    · exact Or.inl ⟨he, hb⟩
    · exact Or.inr (Or.inl ⟨hf, he, hb⟩)

/-- One sweep iteration never lowers the most recent escalation level,
preserves the reachability invariant, and keeps a complaint already at
`executive` exactly there. -/
theorem sweep_step (w : Int) (st : CState) (now : Int) (hinv : escInv st) :
    levelRank (latestLevel st) ≤ levelRank (latestLevel (sweepComplaint w st now)) ∧
    escInv (sweepComplaint w st now) ∧
    (latestLevel st = some .executive →
      latestLevel (sweepComplaint w st now) = some .executive) := by
  rcases sweep_shape w st now with ⟨he, hb⟩ | ⟨hf, he, hb⟩ | ⟨row, hrow, hidx, he, hb⟩
  · refine ⟨?_, ?_, ?_⟩
    · simp [latestLevel, he]
    · intro hne
      rw [he] at hne
      rw [hb]
      exact hinv hne
    · intro hexec
      simpa [latestLevel, he] using hexec
  · have hnil : st.escalations = [] := by
      by_contra hne
      exact absurd (hinv hne) (by simp [hf])
    refine ⟨?_, fun _ => hb, ?_⟩
    · simp [latestLevel, levelRank, hnil]
    · intro hexec
      simp [latestLevel, hnil] at hexec
  · have h1 : latestLevel st = some row.escalation_level := by
      simp [latestLevel, hrow]
    have h2 : latestLevel (sweepComplaint w st now)
        = some (nextLevel row.escalation_level) := by
      simp [latestLevel, he]
    refine ⟨?_, ?_, ?_⟩
    · rw [h1, h2]
      simp [levelRank, levelIdx_nextLevel hidx]
    · intro _
      rw [hb]
      apply hinv
      intro h0
      rw [h0] at hrow
      simp at hrow
    · intro hexec
      rw [h1] at hexec
      have hx : row.escalation_level = .executive := by
        simpa using hexec
      rw [hx] at hidx
      simp [levelIdx] at hidx

/-- Along any sequence of sweeps the most recent escalation level is
monotone, the invariant is preserved, and `executive` is absorbing. -/
theorem sweeps_mono (w : Int) (st : CState) (ts : List Int) (hinv : escInv st) :
    levelRank (latestLevel st) ≤ levelRank (latestLevel (sweeps w st ts)) ∧
    escInv (sweeps w st ts) ∧
    (latestLevel st = some .executive → latestLevel (sweeps w st ts) = some .executive) := by
  induction ts generalizing st with
  | nil => exact ⟨le_rfl, hinv, fun h => h⟩
  | cons t rest ih =>
    have hstep := sweep_step w st t hinv
    have hrest := ih (sweepComplaint w st t) hstep.2.1
    exact ⟨le_trans hstep.1 hrest.1, hrest.2.1,
      fun hexec => hrest.2.2 (hstep.2.2 hexec)⟩

/-- C6: over every sequence of `checkSLABreaches` sweeps of a complaint
whose escalation rows respect the reachability invariant (rows exist only
once `sla_breached` is set — the only way the code ever creates them),
the level of the most recent escalation row never decreases, neither in
one step nor across the whole sequence, and a complaint at `executive`
never advances past it: it stays exactly at `executive`. -/
theorem c6_escalation_monotone (w : Int) (st : CState) (now : Int)
    (ts : List Int) (hinv : escInv st) :
    (levelRank (latestLevel st) ≤ levelRank (latestLevel (sweepComplaint w st now)) ∧
     escInv (sweepComplaint w st now)) ∧
    (levelRank (latestLevel st) ≤ levelRank (latestLevel (sweeps w st ts)) ∧
     escInv (sweeps w st ts)) ∧
    (latestLevel st = some .executive →
      latestLevel (sweeps w st ts) = some .executive) := by
  exact ⟨⟨(sweep_step w st now hinv).1, (sweep_step w st now hinv).2.1⟩,
    ⟨(sweeps_mono w st ts hinv).1, (sweeps_mono w st ts hinv).2.1⟩,
    (sweeps_mono w st ts hinv).2.2⟩

/-- Witness for C6: a breached `in_progress` complaint at `level_1`
satisfies the invariant, and the monotonicity conclusions hold for a
single sweep and for a two-sweep sequence. -/
theorem c6_escalation_monotone_witness :
    escInv sweepSampleState ∧
    ((levelRank (latestLevel sweepSampleState)
        ≤ levelRank (latestLevel (sweepComplaint 21600000 sweepSampleState 108000000)) ∧
      escInv (sweepComplaint 21600000 sweepSampleState 108000000)) ∧
     (levelRank (latestLevel sweepSampleState)
        ≤ levelRank (latestLevel (sweeps 21600000 sweepSampleState
            [108000000, 200000000])) ∧
      escInv (sweeps 21600000 sweepSampleState [108000000, 200000000])) ∧
     (latestLevel sweepSampleState = some .executive →
       latestLevel (sweeps 21600000 sweepSampleState [108000000, 200000000])
         = some .executive)) :=
  ⟨fun _ => rfl,
   c6_escalation_monotone 21600000 sweepSampleState 108000000
     [108000000, 200000000] (fun _ => rfl)⟩

/-- Counterexample to C7: the note the failure handler stores is the
source's literal `Classification failed - requires manual review`, not
the claim's quoted `classification failed — requires manual review`. -/
theorem c7_counterexample :
    (processComplaintClassification { status := .submitted } (.error ()) 0).1.ai_reasoning
      = some classificationFailNote ∧
    classificationFailNote ≠ "classification failed — requires manual review" := by
  exact ⟨rfl, by decide⟩

/-- C7 as amended: when classification fails, the background handler
surfaces nothing to the submitter — it total-returns an updated complaint
sitting in `pending_review` with the system-authored note
`Classification failed - requires manual review` stored in
`ai_reasoning`, and it logs the failure (the returned flag); the result
is produced by this single pass, with no retry. -/
theorem c7_classification_failure_safe (c : Complaint) (nowMs : Int) :
    (processComplaintClassification c (.error ()) nowMs).1.status = .pending_review ∧
    (processComplaintClassification c (.error ()) nowMs).1.ai_reasoning
      = some classificationFailNote ∧
    (processComplaintClassification c (.error ()) nowMs).2 = true ∧
    classificationFailNote = "Classification failed - requires manual review" :=
  ⟨rfl, rfl, rfl, rfl⟩

/-- Counterexample to C8: with the department missing, the classification
pipeline stores a null SLA deadline — there is no 72-hour default, so the
deadline is not `createdAt + 72·0.25 h` (64 800 000 ms after a
time-zero creation). -/
theorem c8_counterexample :
    computeSlaDeadline none .critical 0 = none ∧
    (none : Option Int) ≠ some 64800000 := by
  exact ⟨rfl, by decide⟩

/-- C8 as amended: with a base of 72 hours the helper
`calculateSLADeadline` yields `createdAt` plus 18/36/72 hours for
critical/high/normal urgency; in the classification pipeline the deadline
is computed from the resolved department's `sla_hours` and anchored at
the classification instant, and a department with `sla_hours = 72` and
critical urgency yields that instant plus 18 hours — but a missing
department yields a null deadline, not a 72-hour default. -/
theorem c8_slaDeadline_amended (u : UrgencyLevel) (T : Int) (d : Department) :
    calculateSLADeadline 72 .critical T = T + 18 * 3600000 ∧
    calculateSLADeadline 72 .high T = T + 36 * 3600000 ∧
    calculateSLADeadline 72 .normal T = T + 72 * 3600000 ∧
    computeSlaDeadline none u T = none ∧
    (d.sla_hours = 72 →
      computeSlaDeadline (some d) .critical T = some (T + 18 * 3600000)) := by
  refine ⟨?_, ?_, ?_, rfl, ?_⟩
  · norm_num [calculateSLADeadline, addHoursJs, urgencyMultiplier]
  · norm_num [calculateSLADeadline, addHoursJs, urgencyMultiplier]
  · norm_num [calculateSLADeadline, addHoursJs, urgencyMultiplier]
  · intro hd
    norm_num [computeSlaDeadline, hd, addHoursJs, urgencyMultiplier]

/-- Witness for C8: a department with the default 72 base hours and
critical urgency gives a deadline 18 hours past the anchor instant. -/
theorem c8_slaDeadline_amended_witness :
    ({ id := "WATER", sla_hours := 72 } : Department).sla_hours = 72 ∧
    computeSlaDeadline (some { id := "WATER", sla_hours := 72 }) .critical 0
      = some ((0:Int) + 18 * 3600000) :=
  ⟨rfl, (c8_slaDeadline_amended .critical 0
    { id := "WATER", sla_hours := 72 }).2.2.2.2 rfl⟩

/-- Counterexample to C10: the scorer reads `Date.now()` internally, so
the same arguments (urgency, createdAt, critical-area flag, weights)
evaluated at two different instants return different scores — at the
creation instant urgency `normal` scores 12, a week later the same
arguments score 47. -/
theorem c10_counterexample :
    calculatePriorityScore .normal 0 false DEFAULT_WEIGHTS 0
      ≠ calculatePriorityScore .normal 0 false DEFAULT_WEIGHTS 604800000 := by
  norm_num [calculatePriorityScore, round2, jsRound, URGENCY_VALUES, DEFAULT_WEIGHTS]

/-- C10 as amended: the scorer is deterministic only relative to the
ambient clock it reads — the score is a function of the elapsed time
`now − createdAt` along with the explicit arguments, so shifting the
creation instant and the clock reading together never changes it. -/
theorem c10_score_clock_shift (u : UrgencyLevel) (createdAtMs nowMs d : Int)
    (a : Bool) (w : PriorityWeights) :
    calculatePriorityScore u createdAtMs a w nowMs
      = calculatePriorityScore u (createdAtMs + d) a w (nowMs + d) := by
  unfold calculatePriorityScore
  have h : nowMs + d - (createdAtMs + d) = nowMs - createdAtMs := by ring
  rw [h]

/-- Two-decimal rounding keeps a value of the unit interval scaled to
`[0,100]` inside `[0,100]`. -/
theorem round2_nonneg_le (q : ℚ) (h0 : 0 ≤ q) (h100 : q ≤ 100) :
    0 ≤ round2 q ∧ round2 q ≤ 100 := by
  unfold round2 jsRound
  constructor
  · apply div_nonneg _ (by norm_num)
    have h : (0:ℤ) ≤ ⌊q * 100 + 1/2⌋ := Int.le_floor.mpr (by push_cast; linarith)
    exact_mod_cast h
  · rw [div_le_iff₀ (by norm_num : (0:ℚ) < 100)]
    have h : ⌊q * 100 + 1/2⌋ < 10001 := Int.floor_lt.mpr (by push_cast; linarith)
    have h2 : ⌊q * 100 + 1/2⌋ ≤ 10000 := by omega
    calc ((⌊q * 100 + 1/2⌋ : ℤ) : ℚ) ≤ 10000 := by exact_mod_cast h2
      _ = 100 * 100 := by norm_num

/-- Counterexample to C9: with the default weights, arguments inside the
claim's stated domain (`urgency = normal`, creation one week after the
clock reading, no critical area) give a score of −23, outside `[0,100]`. -/
theorem c9_counterexample :
    calculatePriorityScore .normal 604800000 false DEFAULT_WEIGHTS 0 = -23 ∧
    ((-23 : ℚ) < 0) := by
  constructor
  · norm_num [calculatePriorityScore, round2, jsRound, URGENCY_VALUES, DEFAULT_WEIGHTS]
  · norm_num

/-- C9 as amended: for nonnegative weights summing to 100 and a creation
instant not after the clock reading, the score equals the claimed
weighted sum rounded to two decimals and lies in `[0,100]`; with the
default weights, critical urgency, creation at the clock instant and a
critical area, it is exactly 65. -/
theorem c9_priorityScore_amended (u : UrgencyLevel) (createdAtMs nowMs : Int)
    (a : Bool) (wu wt wl : ℚ) (h1 : 0 ≤ wu) (h2 : 0 ≤ wt) (h3 : 0 ≤ wl)
    (hsum : wu + wt + wl = 100) (hc : createdAtMs ≤ nowMs) :
    calculatePriorityScore u createdAtMs a
        { urgency := wu, time := wt, location := wl } nowMs
      = round2 (wu * URGENCY_VALUES u +
          wt * min (((nowMs - createdAtMs : Int) : ℚ) / 3600000 / 168) 1 +
          wl * (if a then 1 else 0)) ∧
    0 ≤ calculatePriorityScore u createdAtMs a
        { urgency := wu, time := wt, location := wl } nowMs ∧
    calculatePriorityScore u createdAtMs a
        { urgency := wu, time := wt, location := wl } nowMs ≤ 100 ∧
    calculatePriorityScore .critical 0 true DEFAULT_WEIGHTS 0 = 65 := by
  have hu0 : 0 ≤ URGENCY_VALUES u := by cases u <;> norm_num [URGENCY_VALUES]
  have hu1 : URGENCY_VALUES u ≤ 1 := by cases u <;> norm_num [URGENCY_VALUES]
  have hx0 : (0:ℚ) ≤ ((nowMs - createdAtMs : Int) : ℚ) / 3600000 / 168 := by
    apply div_nonneg (div_nonneg ?_ (by norm_num)) (by norm_num)
    exact_mod_cast Int.sub_nonneg.mpr hc
  have ht0 : 0 ≤ min (((nowMs - createdAtMs : Int) : ℚ) / 3600000 / 168) 1 :=
    le_min hx0 (by norm_num)
  have ht1 : min (((nowMs - createdAtMs : Int) : ℚ) / 3600000 / 168) 1 ≤ 1 :=
    min_le_right _ _
  have hl0 : (0:ℚ) ≤ (if a then 1 else 0) := by split <;> norm_num
  have hl1 : (if a then (1:ℚ) else 0) ≤ 1 := by split <;> norm_num
  have hS0 : 0 ≤ wu * URGENCY_VALUES u +
      wt * min (((nowMs - createdAtMs : Int) : ℚ) / 3600000 / 168) 1 +
      wl * (if a then 1 else 0) :=
    add_nonneg (add_nonneg (mul_nonneg h1 hu0) (mul_nonneg h2 ht0))
      (mul_nonneg h3 hl0)
  have hS100 : wu * URGENCY_VALUES u +
      wt * min (((nowMs - createdAtMs : Int) : ℚ) / 3600000 / 168) 1 +
      wl * (if a then 1 else 0) ≤ 100 := by
    have b1 : wu * URGENCY_VALUES u ≤ wu := mul_le_of_le_one_right h1 hu1
    have b2 : wt * min (((nowMs - createdAtMs : Int) : ℚ) / 3600000 / 168) 1 ≤ wt :=
      mul_le_of_le_one_right h2 ht1
    have b3 : wl * (if a then (1:ℚ) else 0) ≤ wl := mul_le_of_le_one_right h3 hl1
    linarith
  obtain ⟨hr0, hr100⟩ := round2_nonneg_le _ hS0 hS100
  exact ⟨rfl, hr0, hr100, by
    norm_num [calculatePriorityScore, round2, jsRound, URGENCY_VALUES, DEFAULT_WEIGHTS]⟩

/-- Witness for C9: the default weights are nonnegative, sum to 100, and
at the creation instant with critical urgency in a critical area the
score is in range and equals exactly 65. -/
theorem c9_priorityScore_amended_witness :
    (0:ℚ) ≤ 40 ∧ (0:ℚ) ≤ 35 ∧ (0:ℚ) ≤ 25 ∧ (40:ℚ) + 35 + 25 = 100 ∧
    (0:Int) ≤ 0 ∧
    0 ≤ calculatePriorityScore .critical 0 true
      { urgency := 40, time := 35, location := 25 } 0 ∧
    calculatePriorityScore .critical 0 true
      { urgency := 40, time := 35, location := 25 } 0 ≤ 100 ∧
    calculatePriorityScore .critical 0 true DEFAULT_WEIGHTS 0 = 65 := by
  refine ⟨by norm_num, by norm_num, by norm_num, by norm_num, le_refl 0, ?_, ?_, ?_⟩
  · exact (c9_priorityScore_amended .critical 0 0 true 40 35 25 (by norm_num)
      (by norm_num) (by norm_num) (by norm_num) le_rfl).2.1
  · exact (c9_priorityScore_amended .critical 0 0 true 40 35 25 (by norm_num)
      (by norm_num) (by norm_num) (by norm_num) le_rfl).2.2.1
  · exact (c9_priorityScore_amended .critical 0 0 true 40 35 25 (by norm_num)
      (by norm_num) (by norm_num) (by norm_num) le_rfl).2.2.2
